import Mathlib

/-!
Shallow embedding of `yt_dlp_plugins/extractor/youtubeoauth.py`
(yt-dlp-youtube-oauth2 plugin).

Modelling conventions:
* Python JSON-ish values are `JVal` (strings and integer timestamps/durations;
  the claims only exercise these two shapes).
* Python dicts holding token data are association lists `Dict` with
  lookup-by-first-match; `d[k]` (subscription) is `dget`, which raises
  `KeyError` when the key is absent, and `k in d` is `hasKey`.
* Request header dicts are `Headers` (string-to-string association lists);
  `pop` and `update` mirror `dict.pop(k, None)` / `dict.update`.
* Python exceptions are the `PyErr` error type of an `Except`.
* `datetime.datetime.now(...).timestamp()` is a parameter `now : Int`
  (the spec models `expires` as a UNIX timestamp in seconds).
* The HTTP collaborators (`self._download_json`, `_execute_request`) are
  modelled by scripted responses: the device-code endpoint responses and
  token-endpoint responses the mock server would return, consumed in order.
-/

namespace YTOAuth

/-- A JSON-ish value as used in the plugin's token records. -/
inductive JVal where
  | str (s : String)
  | num (n : Int)
deriving Repr, DecidableEq

/-- Python `str(v)` / f-string interpolation of a value. -/
def JVal.toStr : JVal → String
  | .str s => s
  | .num n => toString n

/-- A Python dict with string keys, as an association list. -/
abbrev Dict := List (String × JVal)

/-- Python exceptions raised by the modelled code. -/
inductive PyErr where
  | typeError
  | keyError (k : String)
  | extractorError (msg : String)
  | scriptExhausted
deriving Repr, DecidableEq

/-- Dict lookup (first match), i.e. `d.get(k)`. -/
def dlookup : Dict → String → Option JVal
  | [], _ => none
  | (k, v) :: rest, key => if k = key then some v else dlookup rest key

/-- Python `key in d`. -/
def hasKey (d : Dict) (k : String) : Bool :=
  (dlookup d k).isSome

/-- Python `d[k]`: raises `KeyError` when absent. -/
def dget (d : Dict) (k : String) : Except PyErr JVal :=
  match dlookup d k with
  | some v => .ok v
  | none => .error (.keyError k)

/-- Python truthiness of a dict: non-empty. -/
def dictTruthy (d : Dict) : Bool :=
  !d.isEmpty

/-- Python truthiness of an optional dict (`None` is falsy). -/
def optTruthy : Option Dict → Bool
  | none => false
  | some d => dictTruthy d

/-- The four required token-record fields, in the source's order. -/
def requiredKeys : List String :=
  ["access_token", "expires", "refresh_token", "token_type"]

/-- Core of `YouTubeOAuth2Handler.validate_token_data` applied to a dict:
`all(key in token_data for key in (...))`. -/
def validateDict (d : Dict) : Bool :=
  requiredKeys.all (fun k => hasKey d k)

/-- `YouTubeOAuth2Handler.validate_token_data` on an arbitrary argument
(a dict or Python `None`).  `key in None` raises `TypeError`, so the
function raises rather than returning `False` on `None`. -/
def validate_token_data : Option Dict → Except PyErr Bool
  | none => .error .typeError
  | some d => .ok (validateDict d)

/-- Module constant `_CLIENT_ID`. -/
def _CLIENT_ID : String :=
  "861556708454-d6dlm3lh05idd8npek18k6be8ba3oc68.apps.googleusercontent.com"

/-- Module constant `_CLIENT_SECRET`. -/
def _CLIENT_SECRET : String :=
  "SboVhoG9s0rNafixCSGGKXAT"

/-- A device-code endpoint response
`{device_code, user_code, verification_url, interval, expires_in}`. -/
structure DeviceResp where
  device_code : String
  user_code : String
  verification_url : String
  interval : Int
  expires_in : Int
deriving Repr, DecidableEq

/-- A token-endpoint response, with every field optional (a raw JSON
object); `none` models an absent key. -/
structure TokenResp where
  error : Option String := none
  access_token : Option String := none
  expires_in : Option Int := none
  refresh_token : Option String := none
  token_type : Option String := none
deriving Repr, DecidableEq

/-- `error = traverse_obj(token_response, "error")` followed by `if error:`:
the error string when present and truthy (non-empty), else `none`. -/
def truthyErr : Option String → Option String
  | none => none
  | some e => if e = "" then none else some e

/-- Observable side effects of a device-flow / refresh run: device-code
endpoint calls, token-endpoint polls, `time.sleep` durations in order, and
`report_warning` messages in order. -/
structure FlowTrace where
  deviceCalls : Nat := 0
  tokenCalls : Nat := 0
  sleeps : List Int := []
  warnings : List String := []
deriving Repr, DecidableEq

/-- Warning emitted by `authorize` on `expired_token`. -/
def expiredWarning : String :=
  "The device code has expired, restarting authorization flow"

/-- The token record built on the success path of `authorize`
(lines 219-225): subscription of the four response fields, with
`expires = now + expires_in`. -/
def authSuccessRecord (now : Int) (t : TokenResp) : Except PyErr Dict :=
  match t.access_token with
  | none => .error (.keyError "access_token")
  | some a =>
    match t.expires_in with
    | none => .error (.keyError "expires_in")
    | some ei =>
      match t.refresh_token with
      | none => .error (.keyError "refresh_token")
      | some r =>
        match t.token_type with
        | none => .error (.keyError "token_type")
        | some tt =>
          .ok [("access_token", .str a), ("expires", .num (now + ei)),
               ("refresh_token", .str r), ("token_type", .str tt)]

/-- The `while True:` polling loop of `authorize` (lines 189-225): each
iteration consumes one token-endpoint response; `authorization_pending`
sleeps `interval` and continues; `expired_token` warns and restarts the
whole flow (the recursive `return self.authorize()` is inlined here so the
recursion is structural: the restart consumes the next device-code
response -- or exhausts the script -- sleeps its `interval`, and keeps
polling); any other truthy error raises `ExtractorError`; otherwise the
success record is returned. -/
def pollLoop (now : Int) (d : DeviceResp) (ds : List DeviceResp) :
    List TokenResp → Except PyErr Dict × FlowTrace
  | [] => (.error .scriptExhausted, {})
  | t :: ts =>
    match truthyErr t.error with
    | some e =>
      if e = "authorization_pending" then
        let p := pollLoop now d ds ts
        (p.1, { p.2 with tokenCalls := p.2.tokenCalls + 1,
                         sleeps := d.interval :: p.2.sleeps })
      else if e = "expired_token" then
        match ds with
        | [] =>
          (.error .scriptExhausted,
           { tokenCalls := 1, warnings := [expiredWarning] })
        | d2 :: ds2 =>
          let p := pollLoop now d2 ds2 ts
          (p.1, { p.2 with tokenCalls := p.2.tokenCalls + 1,
                           deviceCalls := p.2.deviceCalls + 1,
                           sleeps := d2.interval :: p.2.sleeps,
                           warnings := expiredWarning :: p.2.warnings })
      else
        (.error (.extractorError ("Unhandled OAuth2 Error: " ++ e)),
         { tokenCalls := 1 })
    | none => (authSuccessRecord now t, { tokenCalls := 1 })

/-- `YouTubeOAuth2Handler.authorize`, driven by scripted server responses:
`devices` are the device-code endpoint responses and `tokens` the
token-endpoint responses, consumed in order.  Entering the flow consumes
one device response, sleeps `interval` once before the first poll
(line 188), then runs the `while True:` polling loop `pollLoop`.  An
exhausted script means the mock server has no further responses. -/
def authorize (now : Int) :
    List DeviceResp → List TokenResp → Except PyErr Dict × FlowTrace
  | [], _ => (.error .scriptExhausted, {})
  | d :: ds, tokens =>
    let p := pollLoop now d ds tokens
    (p.1, { p.2 with deviceCalls := p.2.deviceCalls + 1,
                     sleeps := d.interval :: p.2.sleeps })

/-- An HTTP request the plugin issues: URL, method and JSON body.
`_download_json` issues a POST whenever `data` is provided. -/
structure HttpCall where
  url : String
  method : String
  body : Dict
deriving Repr, DecidableEq

/-- The request built by `YouTubeOAuth2Handler.refresh_token`
(lines 133-146): URL and JSON body as in the source. -/
def refreshRequest (refreshTok : JVal) : HttpCall :=
  { url := "https://www.youtube.com/o/oauth2/token"
    method := "POST"
    body := [("client_id", .str _CLIENT_ID),
             ("client_secret", .str _CLIENT_SECRET),
             ("refresh_token", refreshTok),
             ("grant_type", .str "refresh_token")] }

/-- The token record built on the success path of `refresh_token`
(lines 154-160): `access_token`, `expires = now + expires_in` and
`token_type` by subscription; `refresh_token` via
`token_response.get("refresh_token", refresh_token)`. -/
def refreshSuccessRecord (now : Int) (refreshTok : JVal) (t : TokenResp) :
    Except PyErr Dict :=
  match t.access_token with
  | none => .error (.keyError "access_token")
  | some a =>
    match t.expires_in with
    | none => .error (.keyError "expires_in")
    | some ei =>
      match t.token_type with
      | none => .error (.keyError "token_type")
      | some tt =>
        .ok [("access_token", .str a), ("expires", .num (now + ei)),
             ("token_type", .str tt),
             ("refresh_token",
              match t.refresh_token with
              | some r => .str r
              | none => refreshTok)]

/-- `YouTubeOAuth2Handler.refresh_token`: `resp` is the scripted response
to the refresh POST; on a truthy `error` field it warns and delegates to
`authorize` (with the scripted device-flow responses), otherwise it builds
the refreshed record. -/
def refresh_token (now : Int) (refreshTok : JVal) (resp : TokenResp)
    (devices : List DeviceResp) (tokens : List TokenResp) :
    Except PyErr Dict × FlowTrace :=
  match truthyErr resp.error with
  | some e =>
    let p := authorize now devices tokens
    (p.1, { p.2 with warnings :=
        ("Failed to refresh access token: " ++ e
          ++ ". Restarting authorization flow") :: p.2.warnings })
  | none => (refreshSuccessRecord now refreshTok resp, {})

/-- Observable side effects of `initialize_oauth`: how often the
`authorize` and `refresh_token` paths ran, whether the invalid-cache
warning fired, and every record passed to `store_token`, in order. -/
structure InitCounts where
  authorizeCalls : Nat := 0
  refreshCalls : Nat := 0
  warnedInvalidCache : Bool := false
  stored : List Dict := []
deriving Repr, DecidableEq

/-- Tail of `initialize_oauth` (lines 97-105) once a record `d` is in
hand: `if token_data["expires"] < now + 60:` refresh and store.  A string
`expires` makes the `<` comparison raise `TypeError`. -/
def initFinish (now : Int) (refreshFn : JVal → Except PyErr Dict)
    (d : Dict) (c : InitCounts) : Except PyErr Dict × InitCounts :=
  match dlookup d "expires" with
  | none => (.error (.keyError "expires"), c)
  | some (.str _) => (.error .typeError, c)
  | some (.num e) =>
    if e < now + 60 then
      match dlookup d "refresh_token" with
      | none => (.error (.keyError "refresh_token"), c)
      | some rt =>
        match refreshFn rt with
        | .error err => (.error err, { c with refreshCalls := c.refreshCalls + 1 })
        | .ok d2 => (.ok d2, { c with refreshCalls := c.refreshCalls + 1,
                                      stored := c.stored ++ [d2] })
    else (.ok d, c)

/-- `YouTubeOAuth2Handler.initialize_oauth` (lines 86-105).  `cached` is
what `get_token()` yields (in-memory copy or cache load; `none` is Python
`None`).  The collaborator methods `self.authorize()` and
`self.refresh_token(...)` are passed as oracles, standing for the separately
modelled `authorize` and `refresh_token` driven by a server script. -/
def initialize_oauth (cached : Option Dict) (now : Int)
    (authorizeFn : Except PyErr Dict)
    (refreshFn : JVal → Except PyErr Dict) :
    Except PyErr Dict × InitCounts :=
  let warned : Bool := optTruthy cached && !(validateDict (cached.getD []))
  let td1 : Option Dict := if warned then none else cached
  if optTruthy td1 then
    initFinish now refreshFn (td1.getD []) { warnedInvalidCache := warned }
  else
    match authorizeFn with
    | .error e => (.error e, { warnedInvalidCache := warned, authorizeCalls := 1 })
    | .ok d =>
      initFinish now refreshFn d
        { warnedInvalidCache := warned, authorizeCalls := 1, stored := [d] }

/-- Request headers: a Python dict from header name to value. -/
abbrev Headers := List (String × String)

/-- Header dict lookup. -/
def hLookup : Headers → String → Option String
  | [], _ => none
  | (k, v) :: rest, key => if k = key then some v else hLookup rest key

/-- Python `key in headers`. -/
def hasHKey (h : Headers) (k : String) : Bool :=
  (hLookup h k).isSome

/-- `headers.pop(k, None)` / `headers.pop(k)`: remove the key (a Python
dict has at most one entry per key, so removing every matching entry of
the association list is the dict semantics). -/
def hPop : Headers → String → Headers
  | [], _ => []
  | p :: rest, k => if p.1 = k then hPop rest k else p :: hPop rest k

/-- `headers.update({k: v})`, up to key position (all lookups agree with
the Python dict). -/
def hSet (h : Headers) (k v : String) : Headers :=
  hPop h k ++ [(k, v)]

/-- Python `s.endswith(suffix)`, as a suffix check on the character
lists of the strings. -/
def pyEndsWith (s suffix : String) : Bool :=
  suffix.data.isSuffixOf s.data

/-- An outbound `yt_dlp.networking.Request`, by its URL host
(`urllib.parse.urlparse(request.url).netloc`) and its header dict. -/
structure Request where
  host : String
  headers : Headers
deriving Repr, DecidableEq

/-- `YouTubeOAuth2Handler.handle_oauth` (lines 107-130): no-op unless the
host ends with `"youtube.com"`; otherwise initialize OAuth, strip the
cookie-only headers (plus `Authorization`/`X-Origin` when a cookie-auth
`Authorization` header is present, with a warning) and set
`Authorization` from the token record. -/
def handle_oauth (req : Request) (cached : Option Dict) (now : Int)
    (authorizeFn : Except PyErr Dict)
    (refreshFn : JVal → Except PyErr Dict) :
    Except PyErr Request × InitCounts :=
  if !(pyEndsWith req.host "youtube.com") then
    (.ok req, {})
  else
    match initialize_oauth cached now authorizeFn refreshFn with
    | (.error e, c) => (.error e, c)
    | (.ok td, c) =>
      let h1 := hPop (hPop req.headers "X-Goog-PageId") "X-Goog-AuthUser"
      let h2 :=
        if hasHKey h1 "Authorization" then
          hPop (hPop h1 "Authorization") "X-Origin"
        else h1
      let h3 := hPop h2 "X-Youtube-Identity-Token"
      match dlookup td "token_type" with
      | none => (.error (.keyError "token_type"), c)
      | some tt =>
        match dlookup td "access_token" with
        | none => (.error (.keyError "access_token"), c)
        | some ak =>
          let h4 := hSet h3 "Authorization" (tt.toStr ++ " " ++ ak.toStr)
          (.ok { req with headers := h4 }, c)

/-- `_YouTubeOAuth._create_request` (lines 320-326), after the
`super()._create_request(...)` call produced `req`: a request carrying the
`__youtube_oauth__` marker only has the marker popped; otherwise, when
`_use_oauth2` is set, `handle_oauth` runs. -/
def _create_request (useOauth2 : Bool) (req : Request)
    (cached : Option Dict) (now : Int)
    (authorizeFn : Except PyErr Dict)
    (refreshFn : JVal → Except PyErr Dict) :
    Except PyErr Request × InitCounts :=
  if hasHKey req.headers "__youtube_oauth__" then
    (.ok { req with headers := hPop req.headers "__youtube_oauth__" }, {})
  else if useOauth2 then
    handle_oauth req cached now authorizeFn refreshFn
  else
    (.ok req, {})

/-! ## Helper lemmas -/

theorem hLookup_hPop (h : Headers) (k key : String) :
    hLookup (hPop h k) key = if key = k then none else hLookup h key := by
  induction h with
  | nil => simp [hPop, hLookup]
  | cons p rest ih =>
    simp only [hPop]
    by_cases hpk : p.1 = k
    · rw [if_pos hpk, ih]
      by_cases hky : key = k
      · simp [hky]
      · have hpkey : ¬ p.1 = key := by
          intro hk; exact hky (by rw [← hk, hpk])
        simp [hky, hLookup, hpkey]
    · rw [if_neg hpk]
      by_cases hpkey : p.1 = key
      · have hky : ¬ key = k := by
          intro hk; exact hpk (by rw [hpkey, hk])
        simp [hLookup, hpkey, hky]
      · simp [hLookup, hpkey, ih]

theorem hLookup_append (l m : Headers) (key : String) :
    hLookup (l ++ m) key =
      match hLookup l key with
      | some v => some v
      | none => hLookup m key := by
  induction l with
  | nil => simp [hLookup]
  | cons p rest ih =>
    by_cases hpkey : p.1 = key
    · simp [hLookup, hpkey]
    · simp [hLookup, hpkey, ih]

theorem hLookup_hSet (h : Headers) (k v key : String) :
    hLookup (hSet h k v) key = if key = k then some v else hLookup h key := by
  unfold hSet
  rw [hLookup_append, hLookup_hPop]
  by_cases hky : key = k
  · simp [hky, hLookup]
  · have hne : ¬ k = key := fun hk => hky hk.symm
    simp only [hky, ite_false]
    cases hLookup h key <;> simp [hLookup, hne]

theorem validateDict_iff (d : Dict) :
    validateDict d = true ↔ ∀ k ∈ requiredKeys, hasKey d k = true := by
  simp [validateDict, List.all_eq_true]

theorem validateDict_ne_nil (d : Dict) (hv : validateDict d = true) :
    dictTruthy d = true := by
  rcases d with _ | ⟨p, rest⟩
  · have := (validateDict_iff []).1 hv "access_token" (by simp [requiredKeys])
    simp [hasKey, dlookup] at this
  · simp [dictTruthy]

theorem pollLoop_replicate_pending (now : Int) (d : DeviceResp)
    (ds : List DeviceResp) (n : Nat) (t : TokenResp) (ht : t.error = none) :
    pollLoop now d ds
        (List.replicate n { error := some "authorization_pending" } ++ [t]) =
      (authSuccessRecord now t,
       { tokenCalls := n + 1, sleeps := List.replicate n d.interval }) := by
  induction n with
  | zero => simp [pollLoop, truthyErr, ht]
  | succ n ih =>
    rw [List.replicate_succ, List.cons_append]
    simp [pollLoop, truthyErr, ih, List.replicate_succ]

theorem initFinish_fresh (now : Int) (refreshFn : JVal → Except PyErr Dict)
    (d : Dict) (c : InitCounts) (e : Int)
    (he : dlookup d "expires" = some (.num e)) (hfresh : now + 60 ≤ e) :
    initFinish now refreshFn d c = (.ok d, c) := by
  have hlt : ¬ (e < now + 60) := by omega
  simp [initFinish, he, hlt]

theorem initFinish_expiring (now : Int) (refreshFn : JVal → Except PyErr Dict)
    (d : Dict) (c : InitCounts) (e : Int) (rt : JVal) (dR : Dict)
    (he : dlookup d "expires" = some (.num e)) (hlt : e < now + 60)
    (hrt : dlookup d "refresh_token" = some rt)
    (hres : refreshFn rt = .ok dR) :
    initFinish now refreshFn d c =
      (.ok dR, { c with refreshCalls := c.refreshCalls + 1,
                        stored := c.stored ++ [dR] }) := by
  simp [initFinish, he, hlt, hrt, hres]

/-! ## Claim theorems -/

/-- Claim C3, counterexample: `validate_token_data` applied to Python
`None` raises `TypeError`; it does not return `False`. -/
theorem validate_token_data_none_counterexample :
    validate_token_data none = .error .typeError ∧
    validate_token_data none ≠ .ok false := by
  exact ⟨rfl, fun h => Except.noConfusion h⟩

/-- Claim C3 (amended): for a dict argument, `validate_token_data` returns
`True` iff the dict is non-empty and all four required fields
(`access_token`, `expires`, `refresh_token`, `token_type`) are present,
and returns `False` when any single one is missing; but applied to a
`None`/absent record it raises `TypeError` rather than returning `False`
(its caller guards `None` away by truthiness before calling it). -/
theorem validate_token_data_spec (d : Dict) :
    (validate_token_data (some d) = .ok true ↔
      (dictTruthy d = true ∧ ∀ k ∈ requiredKeys, hasKey d k = true)) ∧
    (∀ k ∈ requiredKeys, hasKey d k = false →
      validate_token_data (some d) = .ok false) ∧
    validate_token_data none = .error .typeError := by
  refine ⟨⟨?_, ?_⟩, ?_, rfl⟩
  · intro h
    have hv : validateDict d = true := by
      simpa [validate_token_data] using h
    exact ⟨validateDict_ne_nil d hv, (validateDict_iff d).1 hv⟩
  · rintro ⟨-, hall⟩
    simp [validate_token_data, (validateDict_iff d).2 hall]
  · intro k hk hfalse
    have hv : validateDict d = false := by
      rcases Bool.eq_false_or_eq_true (validateDict d) with h | h
      · exact absurd ((validateDict_iff d).1 h k hk) (by simp [hfalse])
      · exact h
    simp [validate_token_data, hv]

theorem validate_token_data_spec_witness :
    validate_token_data (some [("access_token", .str "A"),
      ("refresh_token", .str "R"), ("token_type", .str "Bearer")]) =
      .ok false :=
  (validate_token_data_spec _).2.1 "expires" (by decide) (by decide)

/-- Claim C4, counterexample: with the token endpoint returning
`authorization_pending` twice and then success, `authorize` returns the
success record but sleeps three times (`interval` seconds each), not
twice: there is one sleep before the first poll and one per pending
response. -/
theorem authorize_two_pending_counterexample :
    (authorize 1000 [⟨"dc", "uc", "vu", 5, 1800⟩]
        [{ error := some "authorization_pending" },
         { error := some "authorization_pending" },
         { access_token := some "AT", expires_in := some 3600,
           refresh_token := some "RT", token_type := some "Bearer" }]).2.sleeps =
      [5, 5, 5] ∧
    ¬ ((authorize 1000 [⟨"dc", "uc", "vu", 5, 1800⟩]
        [{ error := some "authorization_pending" },
         { error := some "authorization_pending" },
         { access_token := some "AT", expires_in := some 3600,
           refresh_token := some "RT", token_type := some "Bearer" }]).2.sleeps.length = 2) := by
  exact ⟨rfl, by decide⟩

/-- Claim C4 (amended): every `authorization_pending` poll response causes
a sleep of `interval` seconds followed by another poll, with no
maximum-attempt cap; when the token endpoint returns
`authorization_pending` `n` times and then success, `authorize` sleeps
exactly `n + 1` times (one initial sleep before the first poll plus one
per pending response), `interval` seconds each, polls `n + 1` times, then
returns the success record.  In particular for two pendings it sleeps
three times. -/
theorem authorize_pending_then_success
    (now : Int) (d : DeviceResp) (ds : List DeviceResp) (n : Nat)
    (a r tt : String) (ei : Int) :
    authorize now (d :: ds)
        (List.replicate n { error := some "authorization_pending" } ++
         [{ access_token := some a, expires_in := some ei,
            refresh_token := some r, token_type := some tt }]) =
      (.ok [("access_token", .str a), ("expires", .num (now + ei)),
            ("refresh_token", .str r), ("token_type", .str tt)],
       { deviceCalls := 1, tokenCalls := n + 1,
         sleeps := List.replicate (n + 1) d.interval }) := by
  have hp := pollLoop_replicate_pending now d ds n
      { access_token := some a, expires_in := some ei,
        refresh_token := some r, token_type := some tt } rfl
  simp [authorize, hp, authSuccessRecord, List.replicate_succ]

/-- Claim C5: an `expired_token` poll response restarts the whole flow
from the device-code request: the result is that of `authorize` on the
remaining script and one more device-code call is made; in particular,
with `expired_token` on the first poll and success on the second, the
device-code endpoint is called exactly twice before the flow completes
with the success record. -/
theorem authorize_expired_restarts
    (now : Int) (d : DeviceResp) (ds : List DeviceResp) (ts : List TokenResp) :
    ((authorize now (d :: ds) ({ error := some "expired_token" } :: ts)).1 =
        (authorize now ds ts).1 ∧
      (authorize now (d :: ds) ({ error := some "expired_token" } :: ts)).2.deviceCalls =
        (authorize now ds ts).2.deviceCalls + 1) ∧
    (∀ (d2 : DeviceResp) (a r tt : String) (ei : Int),
      authorize now [d, d2]
          [{ error := some "expired_token" },
           { access_token := some a, expires_in := some ei,
             refresh_token := some r, token_type := some tt }] =
        (.ok [("access_token", .str a), ("expires", .num (now + ei)),
              ("refresh_token", .str r), ("token_type", .str tt)],
         { deviceCalls := 2, tokenCalls := 2,
           sleeps := [d.interval, d2.interval],
           warnings := [expiredWarning] })) := by
  constructor
  · cases ds <;> simp [authorize, pollLoop, truthyErr]
  · intro d2 a r tt ei
    simp [authorize, pollLoop, truthyErr, authSuccessRecord]

/-- Claim C6: any poll error other than `authorization_pending` and
`expired_token` aborts `authorize` with an `ExtractorError` whose message
surfaces the raw error code; no token record is returned. -/
theorem authorize_fatal_on_unknown_error
    (now : Int) (d : DeviceResp) (ds : List DeviceResp)
    (e : String) (ts : List TokenResp)
    (he0 : e ≠ "") (he1 : e ≠ "authorization_pending")
    (he2 : e ≠ "expired_token") :
    authorize now (d :: ds) ({ error := some e } :: ts) =
      (.error (.extractorError ("Unhandled OAuth2 Error: " ++ e)),
       { deviceCalls := 1, tokenCalls := 1, sleeps := [d.interval] }) := by
  simp [authorize, pollLoop, truthyErr, he0, he1, he2]

theorem authorize_fatal_on_unknown_error_witness :
    authorize 0 [⟨"dc", "uc", "vu", 5, 1800⟩] [{ error := some "access_denied" }] =
      (.error (.extractorError ("Unhandled OAuth2 Error: " ++ "access_denied")),
       { deviceCalls := 1, tokenCalls := 1, sleeps := [5] }) :=
  authorize_fatal_on_unknown_error 0 ⟨"dc", "uc", "vu", 5, 1800⟩ []
    "access_denied" [] (by decide) (by decide) (by decide)

/-- Claim C7: on a successful token-endpoint response (no `error` field),
`refresh_token` returns a record with `access_token` and `token_type`
from the response, `expires = now + expires_in`, and `refresh_token` from
the response when present, otherwise the original argument. -/
theorem refresh_token_success
    (now : Int) (origRT : JVal) (resp : TokenResp)
    (devices : List DeviceResp) (tokens : List TokenResp)
    (a tt : String) (ei : Int)
    (herr : resp.error = none) (ha : resp.access_token = some a)
    (hei : resp.expires_in = some ei) (htt : resp.token_type = some tt) :
    refresh_token now origRT resp devices tokens =
      (.ok [("access_token", .str a), ("expires", .num (now + ei)),
            ("token_type", .str tt),
            ("refresh_token",
             match resp.refresh_token with
             | some r => .str r
             | none => origRT)], {}) := by
  simp [refresh_token, truthyErr, herr, refreshSuccessRecord, ha, hei, htt]

theorem refresh_token_success_witness :
    refresh_token 100 (.str "R0")
        { access_token := some "NA", expires_in := some 3600,
          token_type := some "Bearer" } [] [] =
      (.ok [("access_token", .str "NA"), ("expires", .num 3700),
            ("token_type", .str "Bearer"), ("refresh_token", .str "R0")], {}) :=
  refresh_token_success 100 (.str "R0") _ [] [] "NA" "Bearer" 3600
    rfl rfl rfl rfl

/-- Claim C8: on a token-endpoint response carrying a (truthy) `error`
field, `refresh_token` emits a warning and delegates to the full device
authorization flow, returning exactly what that flow returns; the refresh
failure itself raises nothing. -/
theorem refresh_token_error_delegates
    (now : Int) (origRT : JVal) (resp : TokenResp)
    (devices : List DeviceResp) (tokens : List TokenResp) (e : String)
    (herr : resp.error = some e) (hne : e ≠ "") :
    (refresh_token now origRT resp devices tokens).1 =
      (authorize now devices tokens).1 ∧
    (refresh_token now origRT resp devices tokens).2.warnings =
      ("Failed to refresh access token: " ++ e
        ++ ". Restarting authorization flow")
        :: (authorize now devices tokens).2.warnings ∧
    (refresh_token now origRT resp devices tokens).2.deviceCalls =
      (authorize now devices tokens).2.deviceCalls := by
  simp [refresh_token, truthyErr, herr, hne]

theorem refresh_token_error_delegates_witness :
    (refresh_token 0 (.str "R0") { error := some "invalid_grant" }
        [⟨"dc", "uc", "vu", 5, 1800⟩]
        [{ access_token := some "AT", expires_in := some 3600,
           refresh_token := some "RT", token_type := some "Bearer" }]).1 =
      (authorize 0 [⟨"dc", "uc", "vu", 5, 1800⟩]
        [{ access_token := some "AT", expires_in := some 3600,
           refresh_token := some "RT", token_type := some "Bearer" }]).1 :=
  (refresh_token_error_delegates 0 (.str "R0") _ _ _ "invalid_grant"
    rfl (by decide)).1

/-- Claim C9, counterexample: the refresh request is not sent to
`https://oauth2.googleapis.com/token`; its URL is
`https://www.youtube.com/o/oauth2/token`. -/
theorem refreshRequest_url_counterexample :
    (refreshRequest (.str "RT")).url ≠ "https://oauth2.googleapis.com/token" ∧
    (refreshRequest (.str "RT")).url = "https://www.youtube.com/o/oauth2/token" := by
  exact ⟨by decide, rfl⟩

/-- Claim C9 (amended): every refresh request is a POST to
`https://www.youtube.com/o/oauth2/token` with body
`{client_id, client_secret, refresh_token, grant_type=refresh_token}`. -/
theorem refreshRequest_spec (rt : JVal) :
    refreshRequest rt =
      { url := "https://www.youtube.com/o/oauth2/token"
        method := "POST"
        body := [("client_id", .str _CLIENT_ID),
                 ("client_secret", .str _CLIENT_SECRET),
                 ("refresh_token", rt),
                 ("grant_type", .str "refresh_token")] } := rfl

/-- Claim C1: for every starting cache state, `initialize_oauth` returns a
record with all four required fields whose `expires` is at least 60
seconds past `now`, provided the server (its `authorize` and
`refresh_token` collaborators) returns well-formed, non-already-expiring
records; and for every (well-formed) cached record with
`expires < now + 60`, the refresh path runs exactly once. -/
theorem initialize_oauth_guarantee
    (cached : Option Dict) (now : Int)
    (authorizeFn : Except PyErr Dict) (refreshFn : JVal → Except PyErr Dict)
    (dA : Dict) (eA : Int)
    (hA : authorizeFn = .ok dA) (hAv : validateDict dA = true)
    (hAe : dlookup dA "expires" = some (.num eA)) (hAfresh : now + 60 ≤ eA)
    (hR : ∀ rt, ∃ dR eR, refreshFn rt = .ok dR ∧ validateDict dR = true ∧
      dlookup dR "expires" = some (.num eR) ∧ now + 60 ≤ eR)
    (hC : ∀ c, cached = some c → validateDict c = true →
      ∃ eC, dlookup c "expires" = some (.num eC)) :
    ∃ d e, (initialize_oauth cached now authorizeFn refreshFn).1 = .ok d ∧
      validateDict d = true ∧
      dlookup d "expires" = some (.num e) ∧ now + 60 ≤ e ∧
      (∀ c eC, cached = some c → validateDict c = true →
        dlookup c "expires" = some (.num eC) → eC < now + 60 →
        (initialize_oauth cached now authorizeFn refreshFn).2.refreshCalls = 1) := by
  have hfA : ∀ c0, initFinish now refreshFn dA c0 = (.ok dA, c0) :=
    fun c0 => initFinish_fresh now refreshFn dA c0 eA hAe hAfresh
  cases cached with
  | none =>
    refine ⟨dA, eA, ?_, hAv, hAe, hAfresh, ?_⟩
    · simp [initialize_oauth, optTruthy, hA, hfA]
    · intro c eC hc
      exact absurd hc (by simp)
  | some c =>
    by_cases htr : dictTruthy c = true
    · by_cases hval : validateDict c = true
      · obtain ⟨eC, hce⟩ := hC c rfl hval
        by_cases hlt : eC < now + 60
        · have hrtk : hasKey c "refresh_token" = true :=
            (validateDict_iff c).1 hval _ (by simp [requiredKeys])
          obtain ⟨rt, hrt⟩ : ∃ rt, dlookup c "refresh_token" = some rt := by
            simpa [hasKey, Option.isSome_iff_exists] using hrtk
          obtain ⟨dR, eR, hres, hvR, heR, hfR⟩ := hR rt
          have hfe : ∀ c0, initFinish now refreshFn c c0 =
              (.ok dR, { c0 with refreshCalls := c0.refreshCalls + 1,
                                 stored := c0.stored ++ [dR] }) :=
            fun c0 => initFinish_expiring now refreshFn c c0 eC rt dR hce hlt hrt hres
          have hmain : initialize_oauth (some c) now authorizeFn refreshFn =
              (.ok dR, { refreshCalls := 1, stored := [dR] }) := by
            simp [initialize_oauth, optTruthy, htr, hval, hfe]
          refine ⟨dR, eR, ?_, hvR, heR, hfR, ?_⟩
          · rw [hmain]
          · intro c' eC' hc' hv' he' hlt'
            rw [hmain]
        · have hfc : ∀ c0, initFinish now refreshFn c c0 = (.ok c, c0) :=
            fun c0 => initFinish_fresh now refreshFn c c0 eC hce (by omega)
          have hmain : initialize_oauth (some c) now authorizeFn refreshFn =
              (.ok c, {}) := by
            simp [initialize_oauth, optTruthy, htr, hval, hfc]
          refine ⟨c, eC, ?_, hval, hce, by omega, ?_⟩
          · rw [hmain]
          · intro c' eC' hc' hv' he' hlt'
            obtain rfl : c' = c := by injection hc' with h; exact h.symm
            rw [hce] at he'
            simp only [Option.some.injEq, JVal.num.injEq] at he'
            subst he'
            exact absurd hlt' hlt
      · refine ⟨dA, eA, ?_, hAv, hAe, hAfresh, ?_⟩
        · simp [initialize_oauth, optTruthy, htr, hval, hA, hfA]
        · intro c' eC' hc' hv'
          obtain rfl : c' = c := by injection hc' with h; exact h.symm
          exact absurd hv' hval
    · refine ⟨dA, eA, ?_, hAv, hAe, hAfresh, ?_⟩
      · have hct : dictTruthy c = false := by
          rcases Bool.eq_false_or_eq_true (dictTruthy c) with h | h
          · exact absurd h htr
          · exact h
        simp [initialize_oauth, optTruthy, hct, hA, hfA]
      · intro c' eC' hc' hv'
        obtain rfl : c' = c := by injection hc' with h; exact h.symm
        exact absurd (validateDict_ne_nil c' hv') htr

theorem initialize_oauth_guarantee_witness :
    ∃ d e,
      (initialize_oauth
        (some [("access_token", .str "A"), ("expires", .num 120),
               ("refresh_token", .str "R"), ("token_type", .str "Bearer")])
        100
        (.ok [("access_token", .str "NA"), ("expires", .num 4000),
              ("refresh_token", .str "NR"), ("token_type", .str "Bearer")])
        (fun _ => .ok [("access_token", .str "RA"), ("expires", .num 5000),
              ("refresh_token", .str "RR"), ("token_type", .str "Bearer")])).1 =
        .ok d ∧
      validateDict d = true ∧
      dlookup d "expires" = some (.num e) ∧ 100 + 60 ≤ e ∧
      (∀ c eC,
        (some [("access_token", .str "A"), ("expires", .num 120),
               ("refresh_token", .str "R"), ("token_type", .str "Bearer")] :
            Option Dict) = some c →
        validateDict c = true →
        dlookup c "expires" = some (.num eC) → eC < 100 + 60 →
        (initialize_oauth
          (some [("access_token", .str "A"), ("expires", .num 120),
                 ("refresh_token", .str "R"), ("token_type", .str "Bearer")])
          100
          (.ok [("access_token", .str "NA"), ("expires", .num 4000),
                ("refresh_token", .str "NR"), ("token_type", .str "Bearer")])
          (fun _ => .ok [("access_token", .str "RA"), ("expires", .num 5000),
                ("refresh_token", .str "RR"), ("token_type", .str "Bearer")])).2.refreshCalls =
          1) :=
  initialize_oauth_guarantee _ 100 _ _
    [("access_token", .str "NA"), ("expires", .num 4000),
     ("refresh_token", .str "NR"), ("token_type", .str "Bearer")] 4000
    rfl (by decide) (by decide) (by decide)
    (fun rt => ⟨[("access_token", .str "RA"), ("expires", .num 5000),
      ("refresh_token", .str "RR"), ("token_type", .str "Bearer")], 5000,
      rfl, by decide, by decide, by decide⟩)
    (fun c hc hv => by cases hc; exact ⟨120, by decide⟩)

/-- Claim C2: `handle_oauth` leaves the request unchanged when its host
does not end with `"youtube.com"`; when the host matches and the request
carries a cookie-auth `Authorization` header while a valid, current token
record is cached, afterwards the cookie-auth headers (`X-Origin`,
`X-Goog-PageId`, `X-Goog-AuthUser`, `X-Youtube-Identity-Token`) are
absent and `Authorization` equals `"{token_type} {access_token}"` built
from the token record. -/
theorem handle_oauth_spec
    (req : Request) (cached : Option Dict) (now : Int)
    (authorizeFn : Except PyErr Dict) (refreshFn : JVal → Except PyErr Dict) :
    (pyEndsWith req.host "youtube.com" = false →
      handle_oauth req cached now authorizeFn refreshFn = (.ok req, {})) ∧
    (∀ c e tt ak,
      pyEndsWith req.host "youtube.com" = true →
      hasHKey req.headers "Authorization" = true →
      cached = some c → validateDict c = true →
      dlookup c "expires" = some (.num e) → now + 60 ≤ e →
      dlookup c "token_type" = some tt → dlookup c "access_token" = some ak →
      ∃ h, handle_oauth req cached now authorizeFn refreshFn =
          (.ok { host := req.host, headers := h }, {}) ∧
        hLookup h "Authorization" = some (tt.toStr ++ " " ++ ak.toStr) ∧
        hLookup h "X-Goog-PageId" = none ∧
        hLookup h "X-Goog-AuthUser" = none ∧
        hLookup h "X-Origin" = none ∧
        hLookup h "X-Youtube-Identity-Token" = none) := by
  constructor
  · intro hhost
    simp [handle_oauth, hhost]
  · intro c e tt ak hhost hauth hc hval hce hfresh htt hak
    subst hc
    have htr := validateDict_ne_nil c hval
    have hfc : ∀ c0, initFinish now refreshFn c c0 = (.ok c, c0) :=
      fun c0 => initFinish_fresh now refreshFn c c0 e hce hfresh
    have hmain : initialize_oauth (some c) now authorizeFn refreshFn =
        (.ok c, {}) := by
      simp [initialize_oauth, optTruthy, htr, hval, hfc]
    have hin : hasHKey (hPop (hPop req.headers "X-Goog-PageId") "X-Goog-AuthUser")
        "Authorization" = true := by
      simpa [hasHKey, hLookup_hPop] using hauth
    refine ⟨hSet (hPop (hPop (hPop (hPop (hPop req.headers "X-Goog-PageId")
        "X-Goog-AuthUser") "Authorization") "X-Origin")
        "X-Youtube-Identity-Token") "Authorization"
        (tt.toStr ++ " " ++ ak.toStr), ?_, ?_, ?_, ?_, ?_, ?_⟩
    · simp [handle_oauth, hhost, hmain, hin, htt, hak]
    · simp [hLookup_hSet]
    · simp [hLookup_hSet, hLookup_hPop]
    · simp [hLookup_hSet, hLookup_hPop]
    · simp [hLookup_hSet, hLookup_hPop]
    · simp [hLookup_hSet, hLookup_hPop]

theorem handle_oauth_spec_witness :
    ∃ h,
      handle_oauth
          ⟨"www.youtube.com",
           [("Authorization", "SAPISIDHASH aa"), ("X-Origin", "https"),
            ("X-Goog-PageId", "p")]⟩
          (some [("access_token", .str "A"), ("expires", .num 4000),
                 ("refresh_token", .str "R"), ("token_type", .str "Bearer")])
          100 (.error .scriptExhausted) (fun _ => .error .typeError) =
        (.ok { host := "www.youtube.com", headers := h }, {}) ∧
      hLookup h "Authorization" =
        some ((JVal.str "Bearer").toStr ++ " " ++ (JVal.str "A").toStr) ∧
      hLookup h "X-Goog-PageId" = none ∧
      hLookup h "X-Goog-AuthUser" = none ∧
      hLookup h "X-Origin" = none ∧
      hLookup h "X-Youtube-Identity-Token" = none :=
  (handle_oauth_spec
      ⟨"www.youtube.com",
       [("Authorization", "SAPISIDHASH aa"), ("X-Origin", "https"),
        ("X-Goog-PageId", "p")]⟩
      (some [("access_token", .str "A"), ("expires", .num 4000),
             ("refresh_token", .str "R"), ("token_type", .str "Bearer")])
      100 (.error .scriptExhausted) (fun _ => .error .typeError)).2
    [("access_token", .str "A"), ("expires", .num 4000),
     ("refresh_token", .str "R"), ("token_type", .str "Bearer")]
    4000 (.str "Bearer") (.str "A")
    (by decide) (by decide) rfl (by decide) rfl (by decide) rfl rfl

/-- Claim C10: a request whose headers carry the internal
`__youtube_oauth__` marker has exactly that marker removed by
`_create_request` and is never intercepted — no OAuth header mutation
happens even when `_use_oauth2` is enabled — and every other header is
unchanged. -/
theorem create_request_marker
    (useOauth2 : Bool) (req : Request) (cached : Option Dict) (now : Int)
    (authorizeFn : Except PyErr Dict) (refreshFn : JVal → Except PyErr Dict)
    (hm : hasHKey req.headers "__youtube_oauth__" = true) :
    _create_request useOauth2 req cached now authorizeFn refreshFn =
      (.ok { req with headers := hPop req.headers "__youtube_oauth__" }, {}) ∧
    hLookup (hPop req.headers "__youtube_oauth__") "__youtube_oauth__" = none ∧
    (∀ k, k ≠ "__youtube_oauth__" →
      hLookup (hPop req.headers "__youtube_oauth__") k =
        hLookup req.headers k) := by
  refine ⟨by simp [_create_request, hm], by simp [hLookup_hPop], ?_⟩
  intro k hk
  simp [hLookup_hPop, hk]

theorem create_request_marker_witness :
    _create_request true
        ⟨"www.youtube.com",
         [("__youtube_oauth__", "True"), ("Content-Type", "application/json")]⟩
        none 100 (.error .scriptExhausted) (fun _ => .error .typeError) =
      (.ok { host := "www.youtube.com",
             headers := hPop [("__youtube_oauth__", "True"),
               ("Content-Type", "application/json")] "__youtube_oauth__" }, {}) ∧
    hLookup (hPop [("__youtube_oauth__", "True"),
        ("Content-Type", "application/json")] "__youtube_oauth__")
      "__youtube_oauth__" = none ∧
    (∀ k, k ≠ "__youtube_oauth__" →
      hLookup (hPop [("__youtube_oauth__", "True"),
          ("Content-Type", "application/json")] "__youtube_oauth__") k =
        hLookup [("__youtube_oauth__", "True"),
          ("Content-Type", "application/json")] k) :=
  create_request_marker true
    ⟨"www.youtube.com",
     [("__youtube_oauth__", "True"), ("Content-Type", "application/json")]⟩
    none 100 (.error .scriptExhausted) (fun _ => .error .typeError) (by decide)

end YTOAuth
